/-
Verification of the Cedarville–Canva integration server (`server.js`).

The server implements the OAuth 2.0 authorization-code flow with PKCE and
three thin proxy endpoints over the Canva REST API.  Each Express handler is
embedded below as a pure Lean function: the per-request inputs (query
parameters, JSON body, session cookie contents) are explicit arguments, the
outcome of the single upstream `fetch` a handler may perform is an explicit
argument of an outcome type, and the result records the HTTP response
produced together with the mutated session and the exact upstream request
(if any) that the handler issued.  The cryptographic and encoding
primitives the login handler uses (`crypto.createHash('sha256')`,
`Buffer.toString('base64'/'base64url')`, `encodeURIComponent`,
`URLSearchParams` serialisation) are implemented in full so that the PKCE
claims are about the real derivations.
-/
import Mathlib

/-! ## JSON values and JavaScript truthiness -/

/-- JSON values, as produced by `body-parser`/`response.json()`.  Numbers are
modelled as integers; the claims under study only involve the number `0`. -/
inductive Json where
  | null : Json
  | bool (b : Bool) : Json
  | num (n : Int) : Json
  | str (s : String) : Json
  | arr (xs : List Json) : Json
  | obj (fields : List (String × Json)) : Json

/-- Field lookup in a JSON object representation. -/
def lookupField : List (String × Json) → String → Option Json
  | [], _ => none
  | (k, v) :: rest, key => if k = key then some v else lookupField rest key

/-- `someJson.field` access: `undefined` (here `none`) when the value is not
an object or the key is missing. -/
def getField : Json → String → Option Json
  | Json.obj fs, key => lookupField fs key
  | _, _ => none

/-- JavaScript truthiness of a JSON value: `null`, `false`, `0` and the
empty string are falsy; arrays and objects are always truthy. -/
def jsTruthy : Json → Bool
  | Json.null => false
  | Json.bool b => b
  | Json.num n => n != 0
  | Json.str s => s != ""
  | Json.arr _ => true
  | Json.obj _ => true

/-- Truthiness of a possibly-`undefined` JSON value. -/
def jsTruthyOpt : Option Json → Bool
  | none => false
  | some v => jsTruthy v

/-- Truthiness of a possibly-`undefined` string (`!s` in JavaScript):
`undefined` and the empty string are falsy. -/
def optStrTruthy : Option String → Bool
  | none => false
  | some s => s != ""

/-- String coercion of a possibly-`undefined` string value, as performed by
template literals and `URLSearchParams`: `undefined` stringifies to
`"undefined"`. -/
def jsString : Option String → String
  | none => "undefined"
  | some s => s

/-! ## Byte-level encoders used by the server -/

/-- UTF-8 encoding of a single character as a list of bytes. -/
def utf8EncodeChar (c : Char) : List Nat :=
  let n := c.toNat
  if n < 128 then [n]
  else if n < 2048 then [192 + n / 64, 128 + n % 64]
  else if n < 65536 then [224 + n / 4096, 128 + (n / 64) % 64, 128 + n % 64]
  else [240 + n / 262144, 128 + (n / 4096) % 64, 128 + (n / 64) % 64, 128 + n % 64]

/-- UTF-8 bytes of a string (what `Buffer.from(s)` and
`hash.update(s)` operate on). -/
def strBytes (s : String) : List Nat :=
  (s.data.map utf8EncodeChar).flatten

/-- Uppercase hexadecimal digit for a value modulo 16. -/
def hexDigit (n : Nat) : Char :=
  "0123456789ABCDEF".data.getD (n % 16) '0'

/-- Percent-encoding of one byte: `%XY` with uppercase hex digits. -/
def percentByte (b : Nat) : List Char :=
  ['%', hexDigit (b / 16), hexDigit (b % 16)]

/-- Characters `encodeURIComponent` leaves unescaped:
ASCII alphanumerics and `-_.!~*'()`. -/
def isUnreservedURI (c : Char) : Bool :=
  c.isAlphanum || c == '-' || c == '_' || c == '.' || c == '!' || c == '~'
    || c == '*' || c == '\'' || c == '(' || c == ')'

/-- Encoding of a single character under `encodeURIComponent`. -/
def uriEncodeChar (c : Char) : List Char :=
  if isUnreservedURI c then [c] else ((utf8EncodeChar c).map percentByte).flatten

/-- JavaScript's `encodeURIComponent`. -/
def encodeURIComponent (s : String) : String :=
  String.mk ((s.data.map uriEncodeChar).flatten)

/-- Characters the `application/x-www-form-urlencoded` serialiser (used by
`URLSearchParams`/`url.searchParams`) leaves unescaped: ASCII alphanumerics
and `*-._`. -/
def isFormSafe (c : Char) : Bool :=
  c.isAlphanum || c == '*' || c == '-' || c == '.' || c == '_'

/-- Encoding of a single character under form-urlencoded serialisation:
space becomes `+`. -/
def formEncodeChar (c : Char) : List Char :=
  if c == ' ' then ['+']
  else if isFormSafe c then [c]
  else ((utf8EncodeChar c).map percentByte).flatten

/-- `application/x-www-form-urlencoded` encoding of a string. -/
def formUrlEncode (s : String) : String :=
  String.mk ((s.data.map formEncodeChar).flatten)

/-- Standard base64 alphabet character for a 6-bit value. -/
def b64Char (n : Nat) : Char :=
  "ABCDEFGHIJKLMNOPQRSTUVWXYZabcdefghijklmnopqrstuvwxyz0123456789+/".data.getD (n % 64) 'A'

/-- Base64url alphabet character for a 6-bit value. -/
def b64uChar (n : Nat) : Char :=
  "ABCDEFGHIJKLMNOPQRSTUVWXYZabcdefghijklmnopqrstuvwxyz0123456789-_".data.getD (n % 64) 'A'

/-- Standard base64 encoding with `=` padding
(Node's `buffer.toString('base64')`). -/
def base64Chars : List Nat → List Char
  | b1 :: b2 :: b3 :: rest =>
      b64Char (b1 / 4) :: b64Char ((b1 % 4) * 16 + b2 / 16)
        :: b64Char ((b2 % 16) * 4 + b3 / 64) :: b64Char (b3 % 64)
        :: base64Chars rest
  | [b1, b2] =>
      [b64Char (b1 / 4), b64Char ((b1 % 4) * 16 + b2 / 16),
       b64Char ((b2 % 16) * 4), '=']
  | [b1] =>
      [b64Char (b1 / 4), b64Char ((b1 % 4) * 16), '=', '=']
  | [] => []

/-- `Buffer.from(bytes).toString('base64')`. -/
def base64Encode (bs : List Nat) : String :=
  String.mk (base64Chars bs)

/-- Unpadded base64url encoding
(Node's `buffer.toString('base64url')` / `hash.digest('base64url')`). -/
def base64urlChars : List Nat → List Char
  | b1 :: b2 :: b3 :: rest =>
      b64uChar (b1 / 4) :: b64uChar ((b1 % 4) * 16 + b2 / 16)
        :: b64uChar ((b2 % 16) * 4 + b3 / 64) :: b64uChar (b3 % 64)
        :: base64urlChars rest
  | [b1, b2] =>
      [b64uChar (b1 / 4), b64uChar ((b1 % 4) * 16 + b2 / 16),
       b64uChar ((b2 % 16) * 4)]
  | [b1] =>
      [b64uChar (b1 / 4), b64uChar ((b1 % 4) * 16)]
  | [] => []

/-- `buffer.toString('base64url')`. -/
def base64urlEncode (bs : List Nat) : String :=
  String.mk (base64urlChars bs)

/-! ## SHA-256 (`crypto.createHash('sha256')`) -/

/-- Truncation to a 32-bit word. -/
def w32 (n : Nat) : Nat := n % 4294967296

/-- Right rotation of a 32-bit word by `r` bits. -/
def rotr (r x : Nat) : Nat :=
  x / 2 ^ r + (x % 2 ^ r) * 2 ^ (32 - r)

/-- Bitwise complement of a 32-bit word. -/
def notw (x : Nat) : Nat := 4294967295 - x

/-- SHA-256 `Ch` function. -/
def chf (x y z : Nat) : Nat := (x &&& y) ^^^ (notw x &&& z)

/-- SHA-256 `Maj` function. -/
def majf (x y z : Nat) : Nat := (x &&& y) ^^^ (x &&& z) ^^^ (y &&& z)

/-- SHA-256 Σ₀. -/
def bigSigma0 (x : Nat) : Nat := rotr 2 x ^^^ rotr 13 x ^^^ rotr 22 x

/-- SHA-256 Σ₁. -/
def bigSigma1 (x : Nat) : Nat := rotr 6 x ^^^ rotr 11 x ^^^ rotr 25 x

/-- SHA-256 σ₀. -/
def smallSigma0 (x : Nat) : Nat := rotr 7 x ^^^ rotr 18 x ^^^ x / 8

/-- SHA-256 σ₁. -/
def smallSigma1 (x : Nat) : Nat := rotr 17 x ^^^ rotr 19 x ^^^ x / 1024

/-- SHA-256 round constants (FIPS 180-2, in decimal). -/
def K256 : List Nat :=
  [1116352408, 1899447441, 3049323471, 3921009573, 961987163,
   1508970993, 2453635748, 2870763221, 3624381080, 310598401,
   607225278, 1426881987, 1925078388, 2162078206, 2614888103,
   3248222580, 3835390401, 4022224774, 264347078, 604807628,
   770255983, 1249150122, 1555081692, 1996064986, 2554220882,
   2821834349, 2952996808, 3210313671, 3336571891, 3584528711,
   113926993, 338241895, 666307205, 773529912, 1294757372,
   1396182291, 1695183700, 1986661051, 2177026350, 2456956037,
   2730485921, 2820302411, 3259730800, 3345764771, 3516065817,
   3600352804, 4094571909, 275423344, 430227734, 506948616,
   659060556, 883997877, 958139571, 1322822218, 1537002063,
   1747873779, 1955562222, 2024104815, 2227730452, 2361852424,
   2428436474, 2756734187, 3204031479, 3329325298]

/-- SHA-256 initial hash value (FIPS 180-2, in decimal). -/
def H256 : List Nat :=
  [1779033703, 3144134277, 1013904242, 2773480762,
   1359893119, 2600822924, 528734635, 1541459225]

/-- SHA-256 message padding: append `0x80`, zero bytes to 56 mod 64, and the
bit length as 8 big-endian bytes. -/
def sha256Pad (msg : List Nat) : List Nat :=
  let len := msg.length
  let bitLen := len * 8
  msg ++ 128 :: List.replicate ((119 - len % 64) % 64) 0 ++
    [bitLen / 2 ^ 56 % 256, bitLen / 2 ^ 48 % 256, bitLen / 2 ^ 40 % 256,
     bitLen / 2 ^ 32 % 256, bitLen / 2 ^ 24 % 256, bitLen / 2 ^ 16 % 256,
     bitLen / 2 ^ 8 % 256, bitLen % 256]

/-- Big-endian 32-bit words from bytes. -/
def bytesToWords : List Nat → List Nat
  | b1 :: b2 :: b3 :: b4 :: rest =>
      (b1 * 16777216 + b2 * 65536 + b3 * 256 + b4) :: bytesToWords rest
  | _ => []

/-- One message-schedule extension step: the next word from the last 16. -/
def scheduleStep (ws : List Nat) : Nat :=
  w32 (smallSigma1 (ws.getD (ws.length - 2) 0) + ws.getD (ws.length - 7) 0 +
       smallSigma0 (ws.getD (ws.length - 15) 0) + ws.getD (ws.length - 16) 0)

/-- Extend the message schedule by `k` further words. -/
def buildSchedule : List Nat → Nat → List Nat
  | ws, 0 => ws
  | ws, k + 1 => buildSchedule (ws ++ [scheduleStep ws]) k

/-- One SHA-256 compression round on the state `[a,b,c,d,e,f,g,h]`. -/
def round256 (st : List Nat) (k w : Nat) : List Nat :=
  match st with
  | [a, b, c, d, e, f, g, h] =>
      let t1 := w32 (h + bigSigma1 e + chf e f g + k + w)
      let t2 := w32 (bigSigma0 a + majf a b c)
      [w32 (t1 + t2), a, b, c, w32 (d + t1), e, f, g]
  | other => other

/-- SHA-256 compression of one 64-byte block into the running hash. -/
def compressBlock (h0 block : List Nat) : List Nat :=
  let ws := buildSchedule (bytesToWords block) 48
  let st := (K256.zip ws).foldl (fun s p => round256 s p.1 p.2) h0
  (h0.zip st).map (fun p => w32 (p.1 + p.2))

/-- Split a byte list into 64-byte blocks; the fuel argument (any bound on
the number of blocks) keeps the recursion structural. -/
def toBlocksF : Nat → List Nat → List (List Nat)
  | _, [] => []
  | 0, _ => []
  | fuel + 1, l => l.take 64 :: toBlocksF fuel (l.drop 64)

/-- Split a byte list into 64-byte blocks. -/
def toBlocks (l : List Nat) : List (List Nat) :=
  toBlocksF l.length l

/-- Big-endian bytes of one 32-bit word. -/
def wordBytes (w : Nat) : List Nat :=
  [w / 16777216 % 256, w / 65536 % 256, w / 256 % 256, w % 256]

/-- SHA-256 digest (32 bytes) of a byte list. -/
def sha256 (msg : List Nat) : List Nat :=
  (((toBlocks (sha256Pad msg)).foldl compressBlock H256).map wordBytes).flatten

/-! ## Configuration and session state -/

/-- Environment configuration (`CANVA_CLIENT_ID`, `CANVA_CLIENT_SECRET`,
`BASE_URL`, `REDIRECT_URI`). -/
structure Config where
  clientId : String
  clientSecret : String
  baseUrl : String
  redirectUri : String

/-- Per-browser session contents stored in the encrypted cookie.  `none`
models an absent (`undefined`) field. -/
structure Session where
  oauthState : Option String
  codeVerifier : Option String
  accessToken : Option String
  refreshToken : Option String
  expiresAt : Option Int

/-- A fresh session with no fields set. -/
def emptySession : Session :=
  { oauthState := none, codeVerifier := none, accessToken := none,
    refreshToken := none, expiresAt := none }

/-! ## GET /oauth/login -/

/-- The code challenge computed at login:
`crypto.createHash('sha256').update(codeVerifier).digest('base64url')`. -/
def codeChallengeOf (codeVerifier : String) : String :=
  base64urlEncode (sha256 (strBytes codeVerifier))

/-- Result of the login handler: a redirect response plus the updated
session. -/
structure LoginResult where
  status : Nat
  location : String
  session : Session

/-- The `GET /oauth/login` handler.  The two random values produced by
`crypto.randomBytes(..).toString('base64url')` are passed in as the
`state` and `codeVerifier` arguments. -/
def oauthLogin (cfg : Config) (sess : Session) (state codeVerifier : String) :
    LoginResult :=
  let codeChallenge := codeChallengeOf codeVerifier
  let scopes := encodeURIComponent "design:meta:read"
  let authorizeUrl :=
    "https://www.canva.com/api/oauth/authorize" ++
    "?response_type=code" ++
    "&client_id=" ++ encodeURIComponent cfg.clientId ++
    "&redirect_uri=" ++ encodeURIComponent cfg.redirectUri ++
    "&scope=" ++ scopes ++
    "&code_challenge=" ++ codeChallenge ++
    "&code_challenge_method=s256" ++
    "&state=" ++ state
  { status := 302, location := authorizeUrl,
    session := { sess with oauthState := some state,
                           codeVerifier := some codeVerifier } }

/-! ## GET /oauth/callback -/

/-- The token-exchange POST the callback handler sends to
`https://api.canva.com/rest/v1/oauth/token`. -/
structure TokenRequest where
  url : String
  authHeader : String
  contentType : String
  grant_type : String
  code : String
  code_verifier : String
  redirect_uri : String

/-- Fields of a successful token response.  Modelled per the upstream
contract: the provider's token endpoint answers JSON carrying
`access_token`, `refresh_token` and `expires_in`; on an error response these
fields are never read by the handler. -/
structure TokenBody where
  access_token : String
  refresh_token : String
  expires_in : Int

/-- Outcome of the token-exchange `fetch`: an HTTP response (of any status)
or a network-level failure (the promise rejects). -/
inductive TokenOutcome where
  | response (status : Nat) (body : TokenBody) : TokenOutcome
  | networkError : TokenOutcome

/-- `response.ok` of the Fetch API: status in `[200, 300)`. -/
def fetchOk (status : Nat) : Bool :=
  decide (200 ≤ status) && decide (status < 300)

/-- Result of the callback handler: the HTTP response, the updated session,
and the token-exchange request if one was sent. -/
structure CallbackResult where
  status : Nat
  body : String
  session : Session
  request : Option TokenRequest

/-- The token-exchange POST as assembled by the callback handler: Basic
credentials from `CLIENT_ID:CLIENT_SECRET` and the `URLSearchParams` body. -/
def exchangeRequest (cfg : Config) (sess : Session) (code : Option String) :
    TokenRequest :=
  { url := "https://api.canva.com/rest/v1/oauth/token",
    authHeader := "Basic " ++
      base64Encode (strBytes (cfg.clientId ++ ":" ++ cfg.clientSecret)),
    contentType := "application/x-www-form-urlencoded",
    grant_type := "authorization_code",
    code := jsString code,
    code_verifier := jsString sess.codeVerifier,
    redirect_uri := cfg.redirectUri }

/-- The `GET /oauth/callback` handler.  `code` and `state` are the query
parameters (absent query parameters are `none`); `outcome` is what the
token-exchange `fetch` returns; `now` is `Date.now()`. -/
def oauthCallback (cfg : Config) (sess : Session) (code state : Option String)
    (outcome : TokenOutcome) (now : Int) : CallbackResult :=
  if optStrTruthy code = false ∨ optStrTruthy state = false ∨
      state ≠ sess.oauthState then
    { status := 400, body := "Invalid OAuth state or missing code",
      session := sess, request := none }
  else
    let r : TokenRequest := exchangeRequest cfg sess code
    match outcome with
    | TokenOutcome.networkError =>
        { status := 500, body := "OAuth callback error",
          session := sess, request := some r }
    | TokenOutcome.response stt body =>
        if fetchOk stt = false then
          { status := 400, body := "Failed to exchange code for token",
            session := sess, request := some r }
        else
          { status := 200,
            body := "Authorization complete! You can close this tab and return to ChatGPT.",
            session := { sess with
              accessToken := some body.access_token,
              refreshToken := some body.refresh_token,
              expiresAt := some (now + body.expires_in * 1000) },
            request := some r }

/-! ## requireAccessToken middleware and the three proxy handlers -/

/-- Outcome of the `requireAccessToken` middleware: a short-circuit
response, or control passed to the wrapped handler. -/
inductive GateResult where
  | denied (status : Nat) (body : Json) : GateResult
  | allowed : GateResult

/-- The `requireAccessToken` middleware. -/
def requireAccessToken (cfg : Config) (sess : Session) : GateResult :=
  if optStrTruthy sess.accessToken = false then
    GateResult.denied 401 (Json.obj
      [("error", Json.str "Not authenticated"),
       ("authUrl", Json.str (cfg.baseUrl ++ "/oauth/login"))])
  else
    GateResult.allowed

/-- An upstream Canva REST API request issued by a proxy handler. -/
structure ApiRequest where
  method : String
  url : String
  authHeader : String
  body : Option Json

/-- Outcome of a proxy handler's upstream `fetch`: an HTTP response with a
JSON body (per the upstream contract every response is JSON), or a
network-level failure. -/
inductive UpstreamOutcome where
  | response (status : Nat) (body : Json) : UpstreamOutcome
  | networkError : UpstreamOutcome

/-- Result of a proxy route: the HTTP response and the list of upstream
requests issued while handling it. -/
structure ProxyResult where
  status : Nat
  body : Json
  calls : List ApiRequest

/-- `Bearer ${req.session.accessToken}`. -/
def bearerOf (sess : Session) : String :=
  "Bearer " ++ jsString sess.accessToken

/-- The `GET /designs` handler body (runs after `requireAccessToken`).
`q` is the optional `?q=` query parameter. -/
def listDesigns (sess : Session) (q : Option String)
    (outcome : UpstreamOutcome) : ProxyResult :=
  let query := jsString (some (q.getD ""))
  let url :=
    if query = "" then "https://api.canva.com/rest/v1/designs"
    else "https://api.canva.com/rest/v1/designs" ++ "?query=" ++
      formUrlEncode query
  let r : ApiRequest :=
    { method := "GET", url := url, authHeader := bearerOf sess, body := none }
  match outcome with
  | UpstreamOutcome.response stt j => { status := stt, body := j, calls := [r] }
  | UpstreamOutcome.networkError =>
      { status := 500,
        body := Json.obj [("error", Json.str "Error listing designs")],
        calls := [r] }

/-- The `GET /designs/:id` handler body (runs after `requireAccessToken`). -/
def getDesign (sess : Session) (id : String) (outcome : UpstreamOutcome) :
    ProxyResult :=
  let r : ApiRequest :=
    { method := "GET", url := "https://api.canva.com/rest/v1/designs/" ++ id,
      authHeader := bearerOf sess, body := none }
  match outcome with
  | UpstreamOutcome.response stt j => { status := stt, body := j, calls := [r] }
  | UpstreamOutcome.networkError =>
      { status := 500,
        body := Json.obj [("error", Json.str "Error fetching design")],
        calls := [r] }

/-- The `POST /imports/url` handler body (runs after `requireAccessToken`).
`body` is the parsed JSON request body. -/
def importFromUrl (sess : Session) (body : Json) (outcome : UpstreamOutcome) :
    ProxyResult :=
  let fileUrl := getField body "fileUrl"
  if jsTruthyOpt fileUrl = false then
    { status := 400,
      body := Json.obj [("error", Json.str "fileUrl is required")],
      calls := [] }
  else
    let r : ApiRequest :=
      { method := "POST",
        url := "https://api.canva.com/rest/v1/design-imports/url",
        authHeader := bearerOf sess,
        body := some (Json.obj [("url", fileUrl.getD Json.null)]) }
    match outcome with
    | UpstreamOutcome.response stt j =>
        { status := stt, body := j, calls := [r] }
    | UpstreamOutcome.networkError =>
        { status := 500,
          body := Json.obj [("error", Json.str "Error importing design")],
          calls := [r] }

/-- The full `GET /designs` route: middleware then handler. -/
def designsRoute (cfg : Config) (sess : Session) (q : Option String)
    (outcome : UpstreamOutcome) : ProxyResult :=
  match requireAccessToken cfg sess with
  | GateResult.denied stt b => { status := stt, body := b, calls := [] }
  | GateResult.allowed => listDesigns sess q outcome

/-- The full `GET /designs/:id` route: middleware then handler. -/
def designByIdRoute (cfg : Config) (sess : Session) (id : String)
    (outcome : UpstreamOutcome) : ProxyResult :=
  match requireAccessToken cfg sess with
  | GateResult.denied stt b => { status := stt, body := b, calls := [] }
  | GateResult.allowed => getDesign sess id outcome

/-- The full `POST /imports/url` route: middleware then handler. -/
def importsRoute (cfg : Config) (sess : Session) (body : Json)
    (outcome : UpstreamOutcome) : ProxyResult :=
  match requireAccessToken cfg sess with
  | GateResult.denied stt b => { status := stt, body := b, calls := [] }
  | GateResult.allowed => importFromUrl sess body outcome

/-! ## A specification-side query-string parser

Used to state that the authorize URL "carries exactly" a given list of
query parameters: the URL is parsed back into key/value pairs by splitting
the part after the first `?` on `&`, and each piece on its first `=`. -/

/-- Split a character list on every `&`. -/
def splitAmp : List Char → List (List Char)
  | [] => [[]]
  | c :: rest =>
      if c = '&' then [] :: splitAmp rest
      else
        match splitAmp rest with
        | [] => [[c]]
        | g :: gs => (c :: g) :: gs

/-- Break a character list at its first `=` into key and value. -/
def splitEqc : List Char → List Char × List Char
  | [] => ([], [])
  | c :: rest =>
      if c = '=' then ([], rest)
      else
        let p := splitEqc rest
        (c :: p.1, p.2)

/-- The characters after the first `?`. -/
def queryChars (l : List Char) : List Char :=
  (l.dropWhile (fun c => c != '?')).drop 1

/-- Parse the query string of a URL into its key/value pairs. -/
def parseQuery (s : String) : List (String × String) :=
  ((splitAmp (queryChars s.data)).map splitEqc).map
    (fun p => (String.mk p.1, String.mk p.2))

/-- First value associated with a key in a parsed query. -/
def lookupStr : List (String × String) → String → Option String
  | [], _ => none
  | (k, v) :: rest, key => if k = key then some v else lookupStr rest key

/-! ## Sanity checks of the cryptographic and encoding primitives

Known-answer tests: FIPS 180-2 SHA-256 vectors, RFC 4648 base64 vectors,
and the RFC 7636 appendix B code-challenge vector. -/

/-- SHA-256 of `"abc"` matches the FIPS 180-2 test vector. -/
theorem sha256_vector_abc : sha256 (strBytes "abc") =
    [0xba, 0x78, 0x16, 0xbf, 0x8f, 0x01, 0xcf, 0xea,
     0x41, 0x41, 0x40, 0xde, 0x5d, 0xae, 0x22, 0x23,
     0xb0, 0x03, 0x61, 0xa3, 0x96, 0x17, 0x7a, 0x9c,
     0xb4, 0x10, 0xff, 0x61, 0xf2, 0x00, 0x15, 0xad] := by decide

/-- SHA-256 of the empty message matches the FIPS 180-2 test vector. -/
theorem sha256_vector_empty : sha256 [] =
    [0xe3, 0xb0, 0xc4, 0x42, 0x98, 0xfc, 0x1c, 0x14,
     0x9a, 0xfb, 0xf4, 0xc8, 0x99, 0x6f, 0xb9, 0x24,
     0x27, 0xae, 0x41, 0xe4, 0x64, 0x9b, 0x93, 0x4c,
     0xa4, 0x95, 0x99, 0x1b, 0x78, 0x52, 0xb8, 0x55] := by decide

/-- Base64 known-answer test (RFC 4648 style). -/
theorem base64_vector : base64Encode (strBytes "Many hands make light work.") =
    "TWFueSBoYW5kcyBtYWtlIGxpZ2h0IHdvcmsu" ∧
    base64Encode (strBytes "Ma") = "TWE=" ∧
    base64urlEncode (strBytes "Ma") = "TWE" := by
  refine ⟨by decide, by decide, by decide⟩

/-- The full PKCE derivation matches RFC 7636 appendix B: the verifier
`dBjftJeZ4CVP-mB92K27uhbUJU1p1r_wW1gFWFOEjXk` yields the challenge
`E9Melhoa2OwvFrEMTJguCHaoeK1t8URWbuGJSstw-cM`. -/
theorem code_challenge_rfc7636_vector :
    codeChallengeOf "dBjftJeZ4CVP-mB92K27uhbUJU1p1r_wW1gFWFOEjXk" =
    "E9Melhoa2OwvFrEMTJguCHaoeK1t8URWbuGJSstw-cM" := by decide

/-- `encodeURIComponent` known-answer test, exercising the characters that
matter for the authorize URL (`:` is escaped, alphanumerics are kept). -/
theorem encodeURIComponent_vector :
    encodeURIComponent "design:meta:read" = "design%3Ameta%3Aread" := by decide

/-! ## Laws of the query-string parser -/

/-- A list without `&` is a single split group. -/
theorem splitAmp_no_amp (l : List Char) (h : ∀ c ∈ l, c ≠ '&') :
    splitAmp l = [l] := by
  induction l with
  | nil => rfl
  | cons c rest ih =>
    have hc : c ≠ '&' := h c (by simp)
    have hr := ih (fun x hx => h x (by simp [hx]))
    simp [splitAmp, hc, hr]

/-- Splitting off the group before the first `&`. -/
theorem splitAmp_append (l r : List Char) (h : ∀ c ∈ l, c ≠ '&') :
    splitAmp (l ++ '&' :: r) = l :: splitAmp r := by
  induction l with
  | nil => simp [splitAmp]
  | cons c rest ih =>
    have hc : c ≠ '&' := h c (by simp)
    have hr := ih (fun x hx => h x (by simp [hx]))
    simp [splitAmp, hc, hr]

/-- Variant of `splitAmp_append` for a group given in two `&`-free parts. -/
theorem splitAmp_append₂ (k v r : List Char) (hk : ∀ c ∈ k, c ≠ '&')
    (hv : ∀ c ∈ v, c ≠ '&') :
    splitAmp (k ++ (v ++ '&' :: r)) = (k ++ v) :: splitAmp r := by
  rw [← List.append_assoc]
  refine splitAmp_append (k ++ v) r ?_
  intro c hc
  rcases List.mem_append.1 hc with h | h
  · exact hk c h
  · exact hv c h

/-- Variant of `splitAmp_no_amp` for a final group given in two parts. -/
theorem splitAmp_no_amp₂ (k v : List Char) (hk : ∀ c ∈ k, c ≠ '&')
    (hv : ∀ c ∈ v, c ≠ '&') :
    splitAmp (k ++ v) = [k ++ v] := by
  refine splitAmp_no_amp (k ++ v) ?_
  intro c hc
  rcases List.mem_append.1 hc with h | h
  · exact hk c h
  · exact hv c h

/-- Breaking a group at its first `=`. -/
theorem splitEqc_append (k v : List Char) (hk : ∀ c ∈ k, c ≠ '=') :
    splitEqc (k ++ '=' :: v) = (k, v) := by
  induction k with
  | nil => simp [splitEqc]
  | cons c rest ih =>
    have hc : c ≠ '=' := hk c (by simp)
    have hr := ih (fun x hx => hk x (by simp [hx]))
    simp [splitEqc, hc, hr]

/-- Dropping a `?`-free prefix yields the query part. -/
theorem queryChars_append (p r : List Char) (hp : ∀ c ∈ p, c ≠ '?') :
    queryChars (p ++ '?' :: r) = r := by
  induction p with
  | nil => simp [queryChars, List.dropWhile]
  | cons c rest ih =>
    have hc : c ≠ '?' := hp c (by simp)
    have hr := ih (fun x hx => hp x (by simp [hx]))
    have hb : (c != '?') = true := bne_iff_ne.mpr hc
    simp only [queryChars, List.cons_append, List.dropWhile] at hr ⊢
    simpa [hb] using hr

/-- `String.mk` inverts `String.data`. -/
theorem strMk_data (s : String) : String.mk s.data = s := rfl

/-! ## The encoder outputs contain no `&` -/

/-- Hex digits are never `&`. -/
theorem hexDigit_ne_amp (n : Nat) : hexDigit n ≠ '&' := by
  have h : ∀ m, m < 16 → "0123456789ABCDEF".data.getD m '0' ≠ '&' := by decide
  exact h (n % 16) (Nat.mod_lt _ (by norm_num))

/-- Base64url alphabet characters are never `&`. -/
theorem b64uChar_ne_amp (n : Nat) : b64uChar n ≠ '&' := by
  have h : ∀ m, m < 64 →
      "ABCDEFGHIJKLMNOPQRSTUVWXYZabcdefghijklmnopqrstuvwxyz0123456789-_".data.getD m 'A' ≠ '&' := by
    decide
  exact h (n % 64) (Nat.mod_lt _ (by norm_num))

/-- Percent-encoded bytes contain no `&`. -/
theorem percentByte_ne_amp (b : Nat) : ∀ c ∈ percentByte b, c ≠ '&' := by
  intro c hc
  simp [percentByte] at hc
  rcases hc with h | h | h
  · subst h; decide
  · subst h; exact hexDigit_ne_amp _
  · subst h; exact hexDigit_ne_amp _

/-- The `encodeURIComponent` encoding of any character contains no `&`. -/
theorem uriEncodeChar_ne_amp (c : Char) : ∀ x ∈ uriEncodeChar c, x ≠ '&' := by
  intro x hx
  by_cases hsafe : isUnreservedURI c = true
  · simp [uriEncodeChar, hsafe] at hx
    subst hx
    intro hEq
    rw [hEq] at hsafe
    exact absurd hsafe (by decide)
  · simp [uriEncodeChar, hsafe] at hx
    obtain ⟨b, _, hb⟩ := hx
    exact percentByte_ne_amp b x hb

/-- `encodeURIComponent` output contains no `&`. -/
theorem encodeURIComponent_no_amp (s : String) :
    ∀ c ∈ (encodeURIComponent s).data, c ≠ '&' := by
  intro c hc
  simp [encodeURIComponent] at hc
  obtain ⟨x, _, hx⟩ := hc
  exact uriEncodeChar_ne_amp x c hx

/-- Base64url output contains no `&`. -/
theorem base64urlChars_ne_amp : ∀ (bs : List Nat), ∀ c ∈ base64urlChars bs, c ≠ '&'
  | b1 :: b2 :: b3 :: rest => by
      intro c hc
      simp [base64urlChars] at hc
      rcases hc with h | h | h | h | h
      · subst h; exact b64uChar_ne_amp _
      · subst h; exact b64uChar_ne_amp _
      · subst h; exact b64uChar_ne_amp _
      · subst h; exact b64uChar_ne_amp _
      · exact base64urlChars_ne_amp rest c h
  | [b1, b2] => by
      intro c hc
      simp [base64urlChars] at hc
      rcases hc with h | h | h
      · subst h; exact b64uChar_ne_amp _
      · subst h; exact b64uChar_ne_amp _
      · subst h; exact b64uChar_ne_amp _
  | [b1] => by
      intro c hc
      simp [base64urlChars] at hc
      rcases hc with h | h
      · subst h; exact b64uChar_ne_amp _
      · subst h; exact b64uChar_ne_amp _
  | [] => by
      intro c hc
      simp [base64urlChars] at hc

/-- The code challenge contains no `&`. -/
theorem codeChallengeOf_no_amp (v : String) :
    ∀ c ∈ (codeChallengeOf v).data, c ≠ '&' := by
  intro c hc
  simp [codeChallengeOf, base64urlEncode] at hc
  exact base64urlChars_ne_amp _ c hc

theorem authorize_params (cfg : Config) (sess : Session) (st cv : String)
    (hst : ∀ c ∈ st.data, c ≠ '&') :
    parseQuery (oauthLogin cfg sess st cv).location =
      [("response_type", "code"),
       ("client_id", encodeURIComponent cfg.clientId),
       ("redirect_uri", encodeURIComponent cfg.redirectUri),
       ("scope", encodeURIComponent "design:meta:read"),
       ("code_challenge", codeChallengeOf cv),
       ("code_challenge_method", "s256"),
       ("state", st)] := by
  have hloc : (oauthLogin cfg sess st cv).location =
      "https://www.canva.com/api/oauth/authorize" ++
      "?response_type=code" ++
      "&client_id=" ++ encodeURIComponent cfg.clientId ++
      "&redirect_uri=" ++ encodeURIComponent cfg.redirectUri ++
      "&scope=" ++ encodeURIComponent "design:meta:read" ++
      "&code_challenge=" ++ codeChallengeOf cv ++
      "&code_challenge_method=s256" ++
      "&state=" ++ st := rfl
  have hdata : ("https://www.canva.com/api/oauth/authorize" ++
      "?response_type=code" ++
      "&client_id=" ++ encodeURIComponent cfg.clientId ++
      "&redirect_uri=" ++ encodeURIComponent cfg.redirectUri ++
      "&scope=" ++ encodeURIComponent "design:meta:read" ++
      "&code_challenge=" ++ codeChallengeOf cv ++
      "&code_challenge_method=s256" ++
      "&state=" ++ st : String).data =
      ("https://www.canva.com/api/oauth/authorize" : String).data ++ '?' ::
      (("response_type=code" : String).data ++ '&' ::
      (("client_id=" : String).data ++ ((encodeURIComponent cfg.clientId).data ++ '&' ::
      (("redirect_uri=" : String).data ++ ((encodeURIComponent cfg.redirectUri).data ++ '&' ::
      (("scope=" : String).data ++ ((encodeURIComponent "design:meta:read").data ++ '&' ::
      (("code_challenge=" : String).data ++ ((codeChallengeOf cv).data ++ '&' ::
      (("code_challenge_method=s256" : String).data ++ '&' ::
      (("state=" : String).data ++ st.data))))))))))) := by
    simp
  simp only [parseQuery]
  rw [hloc, hdata]
  rw [queryChars_append _ _ (by decide)]
  rw [splitAmp_append _ _ (by decide)]
  rw [splitAmp_append₂ _ _ _ (by decide) (encodeURIComponent_no_amp _)]
  rw [splitAmp_append₂ _ _ _ (by decide) (encodeURIComponent_no_amp _)]
  rw [splitAmp_append₂ _ _ _ (by decide) (encodeURIComponent_no_amp _)]
  rw [splitAmp_append₂ _ _ _ (by decide) (codeChallengeOf_no_amp _)]
  rw [splitAmp_append _ _ (by decide)]
  rw [splitAmp_no_amp₂ _ _ (by decide) hst]
  have e2 : splitEqc (("client_id=" : String).data ++
      (encodeURIComponent cfg.clientId).data) =
      (("client_id" : String).data, (encodeURIComponent cfg.clientId).data) := by
    have h : ("client_id=" : String).data ++ (encodeURIComponent cfg.clientId).data =
        ("client_id" : String).data ++ '=' :: (encodeURIComponent cfg.clientId).data := by
      show (("client_id" : String).data ++ ['=']) ++ _ = _
      rw [List.append_assoc, List.singleton_append]
    rw [h]
    exact splitEqc_append _ _ (by decide)
  have e3 : splitEqc (("redirect_uri=" : String).data ++
      (encodeURIComponent cfg.redirectUri).data) =
      (("redirect_uri" : String).data, (encodeURIComponent cfg.redirectUri).data) := by
    have h : ("redirect_uri=" : String).data ++ (encodeURIComponent cfg.redirectUri).data =
        ("redirect_uri" : String).data ++ '=' :: (encodeURIComponent cfg.redirectUri).data := by
      show (("redirect_uri" : String).data ++ ['=']) ++ _ = _
      rw [List.append_assoc, List.singleton_append]
    rw [h]
    exact splitEqc_append _ _ (by decide)
  have e4 : splitEqc (("scope=" : String).data ++
      (encodeURIComponent "design:meta:read").data) =
      (("scope" : String).data, (encodeURIComponent "design:meta:read").data) := by
    have h : ("scope=" : String).data ++ (encodeURIComponent "design:meta:read").data =
        ("scope" : String).data ++ '=' :: (encodeURIComponent "design:meta:read").data := by
      show (("scope" : String).data ++ ['=']) ++ _ = _
      rw [List.append_assoc, List.singleton_append]
    rw [h]
    exact splitEqc_append _ _ (by decide)
  have e5 : splitEqc (("code_challenge=" : String).data ++ (codeChallengeOf cv).data) =
      (("code_challenge" : String).data, (codeChallengeOf cv).data) := by
    have h : ("code_challenge=" : String).data ++ (codeChallengeOf cv).data =
        ("code_challenge" : String).data ++ '=' :: (codeChallengeOf cv).data := by
      show (("code_challenge" : String).data ++ ['=']) ++ _ = _
      rw [List.append_assoc, List.singleton_append]
    rw [h]
    exact splitEqc_append _ _ (by decide)
  have e7 : splitEqc (("state=" : String).data ++ st.data) =
      (("state" : String).data, st.data) := by
    have h : ("state=" : String).data ++ st.data =
        ("state" : String).data ++ '=' :: st.data := by
      show (("state" : String).data ++ ['=']) ++ _ = _
      rw [List.append_assoc, List.singleton_append]
    rw [h]
    exact splitEqc_append _ _ (by decide)
  simp only [List.map_cons, List.map_nil, e2, e3, e4, e5, e7]
  rfl

/-! ## Reduction lemmas for the callback handler -/

/-- A nonempty string is truthy. -/
theorem optStrTruthy_some (s : String) (h : s ≠ "") :
    optStrTruthy (some s) = true := by
  simp [optStrTruthy, h]

/-- With a nonempty `code`, a nonempty `state` and a matching session state,
the callback's rejection condition is false. -/
theorem callback_cond_false (sess : Session) (c st : String) (hc : c ≠ "")
    (hst : st ≠ "") (hmatch : sess.oauthState = some st) :
    ¬(optStrTruthy (some c) = false ∨ optStrTruthy (some st) = false ∨
      (some st : Option String) ≠ sess.oauthState) := by
  push_neg
  refine ⟨?_, ?_, ?_⟩
  · simp [optStrTruthy_some c hc]
  · simp [optStrTruthy_some st hst]
  · exact hmatch.symm

/-- Reduction of the callback on a network-level exchange failure. -/
theorem oauthCallback_netErr (cfg : Config) (sess : Session) (c st : String)
    (now : Int) (hc : c ≠ "") (hst : st ≠ "")
    (hmatch : sess.oauthState = some st) :
    oauthCallback cfg sess (some c) (some st) TokenOutcome.networkError now =
      { status := 500, body := "OAuth callback error", session := sess,
        request := some (exchangeRequest cfg sess (some c)) } := by
  unfold oauthCallback
  rw [if_neg (callback_cond_false sess c st hc hst hmatch)]

/-- Reduction of the callback on an HTTP response from the provider. -/
theorem oauthCallback_response (cfg : Config) (sess : Session) (c st : String)
    (stt : Nat) (tb : TokenBody) (now : Int) (hc : c ≠ "") (hst : st ≠ "")
    (hmatch : sess.oauthState = some st) :
    oauthCallback cfg sess (some c) (some st) (TokenOutcome.response stt tb) now =
      if fetchOk stt = false then
        { status := 400, body := "Failed to exchange code for token",
          session := sess,
          request := some (exchangeRequest cfg sess (some c)) }
      else
        { status := 200,
          body := "Authorization complete! You can close this tab and return to ChatGPT.",
          session := { sess with
            accessToken := some tb.access_token,
            refreshToken := some tb.refresh_token,
            expiresAt := some (now + tb.expires_in * 1000) },
          request := some (exchangeRequest cfg sess (some c)) } := by
  unfold oauthCallback
  rw [if_neg (callback_cond_false sess c st hc hst hmatch)]

/-! ## Concrete fixtures used by the witnesses -/

/-- Concrete configuration used by the witnesses. -/
def cfgEx : Config :=
  { clientId := "my-client", clientSecret := "my-secret",
    baseUrl := "https://bridge.example.com",
    redirectUri := "https://bridge.example.com/oauth/callback" }

/-- Concrete authenticated session used by the witnesses. -/
def sessAuthedEx : Session :=
  { oauthState := some "statetoken", codeVerifier := some "verifiertoken",
    accessToken := some "access123", refreshToken := some "refresh123",
    expiresAt := some 1700000000000 }

/-- Concrete unauthenticated session used by the witnesses. -/
def sessAnonEx : Session :=
  { oauthState := some "statetoken", codeVerifier := some "verifiertoken",
    accessToken := none, refreshToken := none, expiresAt := none }

/-- Concrete successful token response used by the witnesses. -/
def tokenBodyEx : TokenBody :=
  { access_token := "newAccess", refresh_token := "newRefresh",
    expires_in := 3600 }

/-! ## C1 -/

/-- C1: for every callback request, if the query parameter `code` is absent,
or `state` is absent, or `state` is not exactly the session's stored
`oauthState`, the handler responds 400 and never performs the token-exchange
POST to the provider. -/
theorem callback_rejects_bad_state (cfg : Config) (sess : Session)
    (code state : Option String) (outcome : TokenOutcome) (now : Int)
    (h : code = none ∨ state = none ∨ state ≠ sess.oauthState) :
    (oauthCallback cfg sess code state outcome now).status = 400 ∧
    (oauthCallback cfg sess code state outcome now).request = none := by
  have hcond : optStrTruthy code = false ∨ optStrTruthy state = false ∨
      state ≠ sess.oauthState := by
    rcases h with h | h | h
    · left; rw [h]; rfl
    · right; left; rw [h]; rfl
    · right; right; exact h
  unfold oauthCallback
  rw [if_pos hcond]
  exact ⟨rfl, rfl⟩

/-- C1 witness: a callback with `code` absent is rejected with 400 and no
exchange request. -/
theorem callback_rejects_bad_state_witness :
    (oauthCallback cfgEx sessAuthedEx none (some "statetoken")
      TokenOutcome.networkError 0).status = 400 ∧
    (oauthCallback cfgEx sessAuthedEx none (some "statetoken")
      TokenOutcome.networkError 0).request = none :=
  callback_rejects_bad_state cfgEx sessAuthedEx none (some "statetoken")
    TokenOutcome.networkError 0 (Or.inl rfl)

/-! ## C5 -/

/-- C5: on a successful token exchange the callback persists `accessToken`
and `refreshToken` from the provider response, sets
`expiresAt = now + expires_in * 1000`, and leaves every other session field
unchanged; in particular `oauthState` and `codeVerifier` retain their
pre-callback values. -/
theorem success_persists_tokens_frame (cfg : Config) (sess : Session)
    (c st : String) (stt : Nat) (tb : TokenBody) (now : Int)
    (hc : c ≠ "") (hst : st ≠ "") (hmatch : sess.oauthState = some st)
    (hok : fetchOk stt = true) :
    (oauthCallback cfg sess (some c) (some st)
        (TokenOutcome.response stt tb) now).session =
      { sess with accessToken := some tb.access_token,
                  refreshToken := some tb.refresh_token,
                  expiresAt := some (now + tb.expires_in * 1000) } ∧
    (oauthCallback cfg sess (some c) (some st)
        (TokenOutcome.response stt tb) now).session.oauthState =
      sess.oauthState ∧
    (oauthCallback cfg sess (some c) (some st)
        (TokenOutcome.response stt tb) now).session.codeVerifier =
      sess.codeVerifier := by
  rw [oauthCallback_response cfg sess c st stt tb now hc hst hmatch]
  rw [if_neg (by simp [hok])]
  exact ⟨rfl, rfl, rfl⟩

/-- C5 witness: a concrete successful exchange stores the token triple and
keeps `oauthState`/`codeVerifier`. -/
theorem success_persists_tokens_frame_witness :
    (oauthCallback cfgEx sessAuthedEx (some "authcode") (some "statetoken")
        (TokenOutcome.response 200 tokenBodyEx) 1000).session =
      { sessAuthedEx with accessToken := some tokenBodyEx.access_token,
                          refreshToken := some tokenBodyEx.refresh_token,
                          expiresAt := some (1000 + tokenBodyEx.expires_in * 1000) } ∧
    (oauthCallback cfgEx sessAuthedEx (some "authcode") (some "statetoken")
        (TokenOutcome.response 200 tokenBodyEx) 1000).session.oauthState =
      sessAuthedEx.oauthState ∧
    (oauthCallback cfgEx sessAuthedEx (some "authcode") (some "statetoken")
        (TokenOutcome.response 200 tokenBodyEx) 1000).session.codeVerifier =
      sessAuthedEx.codeVerifier :=
  success_persists_tokens_frame cfgEx sessAuthedEx "authcode" "statetoken"
    200 tokenBodyEx 1000 (by decide) (by decide) rfl (by decide)

/-! ## C6 -/

/-- C6: for a callback that reaches the token exchange, an HTTP error
response from the provider yields 400 with a fixed generic message that does
not depend on the upstream body, while a network-level failure yields 500 —
the two failure modes are distinguished by status code. -/
theorem exchange_failure_statuses (cfg : Config) (sess : Session)
    (c st : String) (now : Int)
    (hc : c ≠ "") (hst : st ≠ "") (hmatch : sess.oauthState = some st) :
    (∀ stt tb, fetchOk stt = false →
      (oauthCallback cfg sess (some c) (some st)
          (TokenOutcome.response stt tb) now).status = 400 ∧
      (oauthCallback cfg sess (some c) (some st)
          (TokenOutcome.response stt tb) now).body =
        "Failed to exchange code for token" ∧
      (∀ tb', (oauthCallback cfg sess (some c) (some st)
          (TokenOutcome.response stt tb) now).body =
        (oauthCallback cfg sess (some c) (some st)
          (TokenOutcome.response stt tb') now).body)) ∧
    (oauthCallback cfg sess (some c) (some st)
        TokenOutcome.networkError now).status = 500 := by
  constructor
  · intro stt tb hbad
    rw [oauthCallback_response cfg sess c st stt tb now hc hst hmatch,
        if_pos hbad]
    refine ⟨rfl, rfl, ?_⟩
    intro tb'
    rw [oauthCallback_response cfg sess c st stt tb' now hc hst hmatch,
        if_pos hbad]
  · rw [oauthCallback_netErr cfg sess c st now hc hst hmatch]

/-- C6 witness: a concrete provider 400 yields a 400 with the generic
message, and a concrete network failure yields 500. -/
theorem exchange_failure_statuses_witness :
    ((oauthCallback cfgEx sessAuthedEx (some "authcode") (some "statetoken")
        (TokenOutcome.response 400 tokenBodyEx) 0).status = 400 ∧
      (oauthCallback cfgEx sessAuthedEx (some "authcode") (some "statetoken")
        (TokenOutcome.response 400 tokenBodyEx) 0).body =
        "Failed to exchange code for token") ∧
    (oauthCallback cfgEx sessAuthedEx (some "authcode") (some "statetoken")
        TokenOutcome.networkError 0).status = 500 := by
  have h := exchange_failure_statuses cfgEx sessAuthedEx "authcode"
    "statetoken" 0 (by decide) (by decide) rfl
  have h1 := h.1 400 tokenBodyEx (by decide)
  exact ⟨⟨h1.1, h1.2.1⟩, h.2⟩

/-! ## C2 -/

/-- C2: every proxy request whose session holds no `accessToken` is answered
401 with a JSON body carrying `error` and `authUrl` (pointing at the login
endpoint) and no upstream call is made; the gate checks only the access
token — it is insensitive to `expiresAt`, so an expired-but-present token
passes it. -/
theorem gateway_requires_token (cfg : Config) (sess : Session)
    (q : Option String) (id : String) (body : Json)
    (outcome : UpstreamOutcome) (h : sess.accessToken = none) :
    ((designsRoute cfg sess q outcome).status = 401 ∧
     (designByIdRoute cfg sess id outcome).status = 401 ∧
     (importsRoute cfg sess body outcome).status = 401) ∧
    ((designsRoute cfg sess q outcome).calls = [] ∧
     (designByIdRoute cfg sess id outcome).calls = [] ∧
     (importsRoute cfg sess body outcome).calls = []) ∧
    (getField (designsRoute cfg sess q outcome).body "error" =
        some (Json.str "Not authenticated") ∧
     getField (designsRoute cfg sess q outcome).body "authUrl" =
        some (Json.str (cfg.baseUrl ++ "/oauth/login")) ∧
     getField (designByIdRoute cfg sess id outcome).body "authUrl" =
        some (Json.str (cfg.baseUrl ++ "/oauth/login")) ∧
     getField (importsRoute cfg sess body outcome).body "authUrl" =
        some (Json.str (cfg.baseUrl ++ "/oauth/login"))) ∧
    (∀ t : String, t ≠ "" → ∀ e : Option Int,
      requireAccessToken cfg { sess with accessToken := some t, expiresAt := e } =
        GateResult.allowed) ∧
    (∀ e e' : Option Int,
      requireAccessToken cfg { sess with expiresAt := e } =
        requireAccessToken cfg { sess with expiresAt := e' }) := by
  have hg : requireAccessToken cfg sess = GateResult.denied 401 (Json.obj
      [("error", Json.str "Not authenticated"),
       ("authUrl", Json.str (cfg.baseUrl ++ "/oauth/login"))]) := by
    unfold requireAccessToken
    rw [h]
    rfl
  refine ⟨⟨?_, ?_, ?_⟩, ⟨?_, ?_, ?_⟩, ⟨?_, ?_, ?_, ?_⟩, ?_, ?_⟩
  · unfold designsRoute; rw [hg]
  · unfold designByIdRoute; rw [hg]
  · unfold importsRoute; rw [hg]
  · unfold designsRoute; rw [hg]
  · unfold designByIdRoute; rw [hg]
  · unfold importsRoute; rw [hg]
  · unfold designsRoute; rw [hg]; rfl
  · unfold designsRoute; rw [hg]; rfl
  · unfold designByIdRoute; rw [hg]; rfl
  · unfold importsRoute; rw [hg]; rfl
  · intro t ht e
    unfold requireAccessToken
    rw [show ({ sess with accessToken := some t, expiresAt := e } : Session).accessToken
          = some t from rfl]
    rw [optStrTruthy_some t ht]
    rfl
  · intro e e'
    rfl

/-- C2 witness: with no token in the session, `GET /designs` is answered 401
with the `authUrl` pointer and issues no upstream call, and an
expired-but-present token passes the gate. -/
theorem gateway_requires_token_witness :
    ((designsRoute cfgEx sessAnonEx none UpstreamOutcome.networkError).status = 401 ∧
     (designsRoute cfgEx sessAnonEx none UpstreamOutcome.networkError).calls = [] ∧
     getField (designsRoute cfgEx sessAnonEx none UpstreamOutcome.networkError).body "authUrl" =
       some (Json.str "https://bridge.example.com/oauth/login")) ∧
    requireAccessToken cfgEx
      { sessAnonEx with accessToken := some "expiredToken", expiresAt := some 0 } =
      GateResult.allowed := by
  have h := gateway_requires_token cfgEx sessAnonEx none "d1" Json.null
    UpstreamOutcome.networkError rfl
  refine ⟨⟨h.1.1, h.2.1.1, ?_⟩, h.2.2.2.1 "expiredToken" (by decide) (some 0)⟩
  have := h.2.2.1.2.1
  simpa [cfgEx] using this

/-! ## C3 -/

/-- C3: for a callback with matching `state` and present `code` on a session
produced by the login handler, the token-exchange POST carries Basic
credentials built from `client_id:client_secret`, together with
`grant_type=authorization_code`, the received `code`, the `code_verifier`
stored at login time in that same session, and a `redirect_uri` identical to
the configured value used at authorize-time. -/
theorem exchange_request_matches_login (cfg : Config) (sess : Session)
    (st cv c : String) (outcome : TokenOutcome) (now : Int)
    (hst : st ≠ "") (hc : c ≠ "") :
    (oauthCallback cfg (oauthLogin cfg sess st cv).session (some c) (some st)
        outcome now).request =
      some { url := "https://api.canva.com/rest/v1/oauth/token",
             authHeader := "Basic " ++ base64Encode
               (strBytes (cfg.clientId ++ ":" ++ cfg.clientSecret)),
             contentType := "application/x-www-form-urlencoded",
             grant_type := "authorization_code",
             code := c,
             code_verifier := cv,
             redirect_uri := cfg.redirectUri } := by
  have hmatch : (oauthLogin cfg sess st cv).session.oauthState = some st := rfl
  have hreq : exchangeRequest cfg (oauthLogin cfg sess st cv).session (some c) =
      { url := "https://api.canva.com/rest/v1/oauth/token",
        authHeader := "Basic " ++ base64Encode
          (strBytes (cfg.clientId ++ ":" ++ cfg.clientSecret)),
        contentType := "application/x-www-form-urlencoded",
        grant_type := "authorization_code",
        code := c,
        code_verifier := cv,
        redirect_uri := cfg.redirectUri } := rfl
  cases outcome with
  | networkError =>
      rw [oauthCallback_netErr cfg _ c st now hc hst hmatch, hreq]
  | response stt tb =>
      rw [oauthCallback_response cfg _ c st stt tb now hc hst hmatch]
      by_cases hok : fetchOk stt = false
      · rw [if_pos hok, hreq]
      · rw [if_neg hok, hreq]

/-- C3 witness: a concrete login followed by a matching callback sends the
exchange request with that session's verifier and the configured
redirect URI. -/
theorem exchange_request_matches_login_witness :
    (oauthCallback cfgEx (oauthLogin cfgEx emptySession "stA" "verifierA").session
        (some "codeA") (some "stA") TokenOutcome.networkError 0).request =
      some { url := "https://api.canva.com/rest/v1/oauth/token",
             authHeader := "Basic " ++ base64Encode
               (strBytes (cfgEx.clientId ++ ":" ++ cfgEx.clientSecret)),
             contentType := "application/x-www-form-urlencoded",
             grant_type := "authorization_code",
             code := "codeA",
             code_verifier := "verifierA",
             redirect_uri := cfgEx.redirectUri } :=
  exchange_request_matches_login cfgEx emptySession "stA" "verifierA" "codeA"
    TokenOutcome.networkError 0 (by decide) (by decide)

/-! ## C4 -/

/-- C4: the code challenge sent on login is deterministically derived from
the code verifier as `base64url(sha256(verifier))`: the derivation equals
the documented one-way function, the same verifier always yields the same
challenge, and the challenge carried in the authorize URL is exactly the
derivation of the verifier stored in that login's session. -/
theorem challenge_from_verifier (cfg : Config) (sess : Session)
    (st v : String) (hst : ∀ c ∈ st.data, c ≠ '&') :
    codeChallengeOf v = base64urlEncode (sha256 (strBytes v)) ∧
    (∀ v1 v2 : String, v1 = v2 → codeChallengeOf v1 = codeChallengeOf v2) ∧
    (oauthLogin cfg sess st v).session.codeVerifier = some v ∧
    lookupStr (parseQuery (oauthLogin cfg sess st v).location)
        "code_challenge" = some (base64urlEncode (sha256 (strBytes v))) := by
  refine ⟨rfl, fun v1 v2 h => by rw [h], rfl, ?_⟩
  rw [authorize_params cfg sess st v hst]
  rfl

/-- C4 witness: concrete login; the challenge in the URL is the sha256-based
derivation of the session's verifier. -/
theorem challenge_from_verifier_witness :
    codeChallengeOf "verifierA" = base64urlEncode (sha256 (strBytes "verifierA")) ∧
    (oauthLogin cfgEx emptySession "stA" "verifierA").session.codeVerifier =
      some "verifierA" ∧
    lookupStr (parseQuery (oauthLogin cfgEx emptySession "stA" "verifierA").location)
        "code_challenge" = some (base64urlEncode (sha256 (strBytes "verifierA"))) := by
  have h := challenge_from_verifier cfgEx emptySession "stA" "verifierA" (by decide)
  exact ⟨h.1, h.2.2.1, h.2.2.2⟩

/-! ## C9 -/

/-- C9: every login responds 302 with an authorize URL whose query carries
exactly `response_type=code`, `client_id`, `redirect_uri`, the fixed
`scope`, `code_challenge`, `code_challenge_method=s256` and `state`, and
overwrites the session's `oauthState`/`codeVerifier`, so the most recent
login wins. -/
theorem login_redirect_and_session (cfg : Config) (sess : Session)
    (st cv : String) (hst : ∀ c ∈ st.data, c ≠ '&') :
    (oauthLogin cfg sess st cv).status = 302 ∧
    parseQuery (oauthLogin cfg sess st cv).location =
      [("response_type", "code"),
       ("client_id", encodeURIComponent cfg.clientId),
       ("redirect_uri", encodeURIComponent cfg.redirectUri),
       ("scope", encodeURIComponent "design:meta:read"),
       ("code_challenge", codeChallengeOf cv),
       ("code_challenge_method", "s256"),
       ("state", st)] ∧
    (oauthLogin cfg sess st cv).session.oauthState = some st ∧
    (oauthLogin cfg sess st cv).session.codeVerifier = some cv ∧
    (∀ st0 cv0 : String,
      (oauthLogin cfg (oauthLogin cfg sess st0 cv0).session st cv).session.oauthState =
        some st ∧
      (oauthLogin cfg (oauthLogin cfg sess st0 cv0).session st cv).session.codeVerifier =
        some cv) :=
  ⟨rfl, authorize_params cfg sess st cv hst, rfl, rfl, fun _ _ => ⟨rfl, rfl⟩⟩

/-- C9 witness: a concrete login carries exactly the seven parameters and a
second login overwrites the first one's state and verifier. -/
theorem login_redirect_and_session_witness :
    (oauthLogin cfgEx emptySession "stB" "verifierB").status = 302 ∧
    parseQuery (oauthLogin cfgEx emptySession "stB" "verifierB").location =
      [("response_type", "code"),
       ("client_id", encodeURIComponent cfgEx.clientId),
       ("redirect_uri", encodeURIComponent cfgEx.redirectUri),
       ("scope", encodeURIComponent "design:meta:read"),
       ("code_challenge", codeChallengeOf "verifierB"),
       ("code_challenge_method", "s256"),
       ("state", "stB")] ∧
    (oauthLogin cfgEx (oauthLogin cfgEx emptySession "old" "oldv").session
        "stB" "verifierB").session.oauthState = some "stB" := by
  have h := login_redirect_and_session cfgEx emptySession "stB" "verifierB"
    (by decide)
  exact ⟨h.1, h.2.1, (h.2.2.2.2 "old" "oldv").1⟩

/-! ## C8 -/

/-- C8: every upstream HTTP response received by a proxy operation — list,
get by id, or import (when it issues its upstream call) — is passed through
with the identical status code and the upstream JSON body unmodified,
including non-2xx statuses. -/
theorem proxy_passthrough (sess : Session) (q : Option String) (id : String)
    (v : Json) (stt : Nat) (j : Json) (hv : jsTruthy v = true) :
    (listDesigns sess q (UpstreamOutcome.response stt j)).status = stt ∧
    (listDesigns sess q (UpstreamOutcome.response stt j)).body = j ∧
    (getDesign sess id (UpstreamOutcome.response stt j)).status = stt ∧
    (getDesign sess id (UpstreamOutcome.response stt j)).body = j ∧
    (importFromUrl sess (Json.obj [("fileUrl", v)])
        (UpstreamOutcome.response stt j)).status = stt ∧
    (importFromUrl sess (Json.obj [("fileUrl", v)])
        (UpstreamOutcome.response stt j)).body = j := by
  have himp : jsTruthyOpt (getField (Json.obj [("fileUrl", v)]) "fileUrl") = true := by
    simp [getField, lookupField, jsTruthyOpt, hv]
  refine ⟨rfl, rfl, rfl, rfl, ?_, ?_⟩
  · unfold importFromUrl
    rw [if_neg (by simp [himp])]
  · unfold importFromUrl
    rw [if_neg (by simp [himp])]

/-- C8 witness: a concrete upstream 404 with a JSON error body is passed
through unchanged by all three operations. -/
theorem proxy_passthrough_witness :
    (listDesigns sessAuthedEx (some "flyer")
        (UpstreamOutcome.response 404 (Json.obj [("error", Json.str "nope")]))).status = 404 ∧
    (getDesign sessAuthedEx "d1"
        (UpstreamOutcome.response 404 (Json.obj [("error", Json.str "nope")]))).body =
      Json.obj [("error", Json.str "nope")] ∧
    (importFromUrl sessAuthedEx (Json.obj [("fileUrl", Json.str "https://f.example/x.png")])
        (UpstreamOutcome.response 404 (Json.obj [("error", Json.str "nope")]))).status = 404 := by
  have h := proxy_passthrough sessAuthedEx (some "flyer") "d1"
    (Json.str "https://f.example/x.png") 404
    (Json.obj [("error", Json.str "nope")]) (by decide)
  exact ⟨h.1, h.2.2.2.1, h.2.2.2.2.1⟩

/-! ## C7 (corrected) -/

/-- C7 counterexample: a request body in which `fileUrl` is present (as the
empty string) is rejected with 400 and issues no upstream POST, refuting
"for every request with a `fileUrl` present, the handler issues exactly one
upstream POST". -/
theorem import_present_fileUrl_cex :
    getField (Json.obj [("fileUrl", Json.str "")]) "fileUrl" =
      some (Json.str "") ∧
    (importFromUrl sessAuthedEx (Json.obj [("fileUrl", Json.str "")])
        (UpstreamOutcome.response 200 Json.null)).calls = [] ∧
    (importFromUrl sessAuthedEx (Json.obj [("fileUrl", Json.str "")])
        (UpstreamOutcome.response 200 Json.null)).status = 400 :=
  ⟨rfl, rfl, rfl⟩

/-- C7 (amended): an import request whose JSON body lacks a `fileUrl` field
is answered 400 with no upstream call; a request whose `fileUrl` is present
and truthy issues exactly one upstream POST whose JSON body is
`{url: fileUrl}`. -/
theorem import_requires_truthy_fileUrl (sess : Session) (body : Json)
    (outcome : UpstreamOutcome) :
    (getField body "fileUrl" = none →
      importFromUrl sess body outcome =
        { status := 400,
          body := Json.obj [("error", Json.str "fileUrl is required")],
          calls := [] }) ∧
    (∀ v, getField body "fileUrl" = some v → jsTruthy v = true →
      (importFromUrl sess body outcome).calls =
        [{ method := "POST",
           url := "https://api.canva.com/rest/v1/design-imports/url",
           authHeader := bearerOf sess,
           body := some (Json.obj [("url", v)]) }]) := by
  constructor
  · intro h
    unfold importFromUrl
    rw [h]
    rfl
  · intro v hv htr
    unfold importFromUrl
    rw [hv]
    rw [if_neg (by simp [jsTruthyOpt, htr])]
    cases outcome <;> rfl

/-- C7 witness: with a truthy `fileUrl`, exactly one upstream POST with body
`{url: fileUrl}` is issued, and with no `fileUrl` field the request is
rejected 400 without an upstream call. -/
theorem import_requires_truthy_fileUrl_witness :
    (importFromUrl sessAuthedEx
        (Json.obj [("fileUrl", Json.str "https://f.example/x.png")])
        (UpstreamOutcome.response 202 Json.null)).calls =
      [{ method := "POST",
         url := "https://api.canva.com/rest/v1/design-imports/url",
         authHeader := bearerOf sessAuthedEx,
         body := some (Json.obj [("url", Json.str "https://f.example/x.png")]) }] ∧
    importFromUrl sessAuthedEx (Json.obj [("other", Json.num 1)])
        (UpstreamOutcome.response 202 Json.null) =
      { status := 400,
        body := Json.obj [("error", Json.str "fileUrl is required")],
        calls := [] } :=
  ⟨(import_requires_truthy_fileUrl sessAuthedEx _ _).2
      (Json.str "https://f.example/x.png") rfl rfl,
   (import_requires_truthy_fileUrl sessAuthedEx _ _).1 rfl⟩

/-! ## C10 -/

/-- C10: an import request whose body carries `fileUrl` as a falsy value
(empty string, `null`, `false` or `0`) is answered 400 exactly as if the
field were absent, and no upstream call is issued. -/
theorem import_falsy_fileUrl_rejected (sess : Session) (body : Json)
    (outcome : UpstreamOutcome) (v : Json)
    (hv : getField body "fileUrl" = some v) (hfalsy : jsTruthy v = false) :
    importFromUrl sess body outcome =
      { status := 400,
        body := Json.obj [("error", Json.str "fileUrl is required")],
        calls := [] } ∧
    importFromUrl sess body outcome =
      importFromUrl sess (Json.obj []) outcome := by
  have h400 : importFromUrl sess body outcome =
      { status := 400,
        body := Json.obj [("error", Json.str "fileUrl is required")],
        calls := [] } := by
    unfold importFromUrl
    rw [hv]
    rw [if_pos (by simp [jsTruthyOpt, hfalsy])]
  exact ⟨h400, by rw [h400]; rfl⟩

/-- C10 witness: each of the four falsy `fileUrl` values — `""`, `null`,
`false`, `0` — is rejected exactly like an absent field. -/
theorem import_falsy_fileUrl_rejected_witness :
    importFromUrl sessAuthedEx (Json.obj [("fileUrl", Json.str "")])
        (UpstreamOutcome.response 200 Json.null) =
      importFromUrl sessAuthedEx (Json.obj [])
        (UpstreamOutcome.response 200 Json.null) ∧
    importFromUrl sessAuthedEx (Json.obj [("fileUrl", Json.null)])
        (UpstreamOutcome.response 200 Json.null) =
      importFromUrl sessAuthedEx (Json.obj [])
        (UpstreamOutcome.response 200 Json.null) ∧
    importFromUrl sessAuthedEx (Json.obj [("fileUrl", Json.bool false)])
        (UpstreamOutcome.response 200 Json.null) =
      importFromUrl sessAuthedEx (Json.obj [])
        (UpstreamOutcome.response 200 Json.null) ∧
    importFromUrl sessAuthedEx (Json.obj [("fileUrl", Json.num 0)])
        (UpstreamOutcome.response 200 Json.null) =
      importFromUrl sessAuthedEx (Json.obj [])
        (UpstreamOutcome.response 200 Json.null) :=
  ⟨(import_falsy_fileUrl_rejected sessAuthedEx
      (Json.obj [("fileUrl", Json.str "")])
      (UpstreamOutcome.response 200 Json.null) (Json.str "") rfl rfl).2,
   (import_falsy_fileUrl_rejected sessAuthedEx
      (Json.obj [("fileUrl", Json.null)])
      (UpstreamOutcome.response 200 Json.null) Json.null rfl rfl).2,
   (import_falsy_fileUrl_rejected sessAuthedEx
      (Json.obj [("fileUrl", Json.bool false)])
      (UpstreamOutcome.response 200 Json.null) (Json.bool false) rfl rfl).2,
   (import_falsy_fileUrl_rejected sessAuthedEx
      (Json.obj [("fileUrl", Json.num 0)])
      (UpstreamOutcome.response 200 Json.null) (Json.num 0) rfl rfl).2⟩
